import Mathlib

/-!
# Verification of the tpotbench job-graph builder

Shallow embedding of `src/benchmark.py` and `src/bench_config.py`: the
combinatorial expansion of a benchmark configuration into algorithm,
baseline and selector jobs, time-budget rescaling, deterministic random
subset selection, selector-strategy dispatch, and the job query/filter
facade.

Modelling conventions:
* Python lists become Lean `List`s; Python `set` values of integers become
  `Finset ℤ`; Python ints become `ℤ` (counts that the source requires to be
  non-negative become `ℕ`).
* The float split ratios are never computed with (they are opaque identity
  payload), so they are embedded as exact rationals.
* Python exceptions escaping a function become `Except BenchError`, with
  fail-fast left-to-right sequencing exactly as exception propagation
  behaves in the source.
* External collaborators (the slurm execution environment, the runner
  script paths, filesystem path normalisation, the lifecycle state of the
  backend) are embedded as opaque data or as explicit parameters.
-/

/-- A 3-way train/validation/test split ratio. The source stores Python
float triples; this core never performs arithmetic on them (they are pure
identity payload), so they are embedded as exact rationals. -/
structure Split where
  train : ℚ
  validation : ℚ
  test : ℚ
deriving DecidableEq

/-- Modelled from the spec: the execution environment collaborator
(`SlurmEnvironment(config['username'])`, from the external
`slurmjobmanager` package) is "identified by an owner/user identity
string"; only that identity is retained here. -/
structure SlurmEnvironment where
  username : String
deriving DecidableEq

/-- Modelled from the spec: `SingleAlgorithmJob` (the `AlgorithmJob` leaf of
the data model) lives in the repository's `jobs` module, which is not part
of the analysed source; per the spec it is "one specific algorithm run over
one (seed, task, split); no dependencies", with identity formed from the
constructor arguments `benchmark.py` passes:
`SingleAlgorithmJob(env, seed, times, task, root, split, algo, runner)`. -/
structure SingleAlgorithmJob where
  env : SlurmEnvironment
  seed : ℤ
  times : List ℤ
  task : ℤ
  root : String
  split : Split
  algorithm : String
  runner : String
deriving DecidableEq

/-- Modelled from the spec: `BaselineJob` lives in the repository's `jobs`
module, not part of the analysed source; per the spec it is "one reference
run per (seed, task, split) over the *rescaled* set of time budgets; no
dependencies", with identity from the constructor arguments
`BaselineJob(env, seed, baseline_times, task, root, split, runner)`.
The source passes `list(baseline_times)` of a Python `set`; the set itself
is retained here. -/
structure BaselineJob where
  env : SlurmEnvironment
  seed : ℤ
  times : Finset ℤ
  task : ℤ
  root : String
  split : Split
  runner : String
deriving DecidableEq

/-- Modelled from the spec: `SelectorJob` lives in the repository's `jobs`
module, not part of the analysed source; per the spec it is "one
algorithm-selection-strategy run per (seed, task, split,
selector-instance-name); owns an ordered list of the `AlgorithmJob`
instances whose results it consumes", with identity from the constructor
arguments `SelectorJob(env, seed, times, task, root, split, runner, name,
algorithm_jobs)`. -/
structure SelectorJob where
  env : SlurmEnvironment
  seed : ℤ
  times : List ℤ
  task : ℤ
  root : String
  split : Split
  runner : String
  name : String
  algorithm_jobs : List SingleAlgorithmJob
deriving DecidableEq

/-- The union type of jobs returned by `Benchmark.jobs` (the source types
it `List[TPOTJob]`, the common base class in the `jobs` module). -/
inductive TPOTJob where
  | alg (j : SingleAlgorithmJob)
  | sel (j : SelectorJob)
  | base (j : BaselineJob)
deriving DecidableEq

/-- The identity tuple of a job: (seed, task, split, time-budget set,
algorithm/selector name, root path); per the spec, identity is "formed from
{seed, task, split, time-budget-set, root path}" plus the algorithm or
selector name. Baseline jobs have no algorithm/selector name field. -/
def TPOTJob.identity : TPOTJob → ℤ × ℤ × Split × Finset ℤ × String × String
  | .alg j => (j.seed, j.task, j.split, j.times.toFinset, j.algorithm, j.root)
  | .sel j => (j.seed, j.task, j.split, j.times.toFinset, j.name, j.root)
  | .base j => (j.seed, j.task, j.split, j.times, "baseline", j.root)

/-- A selector specification (`config['selectors']` entries: Python dicts
with keys `type`, `name`, and, for the bounded/random variants, `n` and
`selection_seeds`). The `type` tag is kept as a raw string because the
source dispatches on arbitrary strings and unknown tags are an error case.
`n` and `selection_seeds` are only read by the strategies that use them. -/
structure SelectorSpec where
  type : String
  name : String
  n : ℕ := 0
  selection_seeds : List ℤ := []
deriving DecidableEq

/-- `config['baselines']` (a dict holding the integer scale factor). -/
structure BaselinesConfig where
  scale : ℕ
deriving DecidableEq

/-- `BenchmarkConfig` from `bench_config.py`. -/
structure BenchmarkConfig where
  id : String
  dir : String
  username : String
  seeds : List ℤ
  times_in_mins : List ℤ
  openml_tasks : List ℤ
  data_splits : List Split
  algorithms : List String
  selectors : List SelectorSpec
  baselines : BaselinesConfig
deriving DecidableEq

/-- The runner-path module constants of `benchmark.py`. The absolute
directory prefix (`os.path.dirname(...)` of the module file) is an
external filesystem concern; the paths are opaque identity payload. -/
def single_algorithm_runner : String := "runners/single_algorithm_runner.py"

def baseline_runner : String := "runners/baseline_runner.py"

def selector_runner : String := "runners/selector_runner.py"

/-- `os.path.join(config['dir'], config['id'])`; `os.path.abspath` is
process-constant path normalisation, external to the core logic, and the
result is used only as opaque identity payload. -/
def rootFolder (config : BenchmarkConfig) : String :=
  config.dir ++ "/" ++ config.id

/-- `Benchmark.__init__`: stores the config, the environment built from
the configured username, and the root folder. -/
structure Benchmark where
  config : BenchmarkConfig
  env : SlurmEnvironment
  root : String
deriving DecidableEq

def Benchmark.ofConfig (config : BenchmarkConfig) : Benchmark :=
  { config := config
    env := ⟨config.username⟩
    root := rootFolder config }

/-! ## Cartesian products

`itertools.product` enumerates tuples in lexicographic nesting order:
leftmost input outermost. -/

def listProd2 {α β : Type} (as : List α) (bs : List β) : List (α × β) :=
  as.flatMap fun a => bs.map fun b => (a, b)

def listProd3 {α β γ : Type} (as : List α) (bs : List β) (cs : List γ) :
    List (α × β × γ) :=
  as.flatMap fun a => (listProd2 bs cs).map fun p => (a, p)

def listProd4 {α β γ δ : Type} (as : List α) (bs : List β) (cs : List γ)
    (ds : List δ) : List (α × β × γ × δ) :=
  as.flatMap fun a => (listProd3 bs cs ds).map fun p => (a, p)

theorem length_listProd2 {α β : Type} (as : List α) (bs : List β) :
    (listProd2 as bs).length = as.length * bs.length := by
  induction as with
  | nil => simp [listProd2]
  | cons a as ih =>
    have hcons : listProd2 (a :: as) bs
        = (bs.map fun b => (a, b)) ++ listProd2 as bs := by
      simp only [listProd2, List.flatMap_cons]
    rw [hcons, List.length_append, List.length_map, ih, List.length_cons]
    ring

theorem length_listProd3 {α β γ : Type} (as : List α) (bs : List β)
    (cs : List γ) :
    (listProd3 as bs cs).length = as.length * bs.length * cs.length := by
  induction as with
  | nil => simp [listProd3]
  | cons a as ih =>
    have hcons : listProd3 (a :: as) bs cs
        = ((listProd2 bs cs).map fun p => (a, p)) ++ listProd3 as bs cs := by
      simp only [listProd3, List.flatMap_cons]
    rw [hcons, List.length_append, List.length_map, ih, length_listProd2,
      List.length_cons]
    ring

theorem length_listProd4 {α β γ δ : Type} (as : List α) (bs : List β)
    (cs : List γ) (ds : List δ) :
    (listProd4 as bs cs ds).length
      = as.length * bs.length * cs.length * ds.length := by
  induction as with
  | nil => simp [listProd4]
  | cons a as ih =>
    have hcons : listProd4 (a :: as) bs cs ds
        = ((listProd3 bs cs ds).map fun p => (a, p)) ++ listProd4 as bs cs ds := by
      simp only [listProd4, List.flatMap_cons]
    rw [hcons, List.length_append, List.length_map, ih, length_listProd3,
      List.length_cons]
    ring

/-! ## Error taxonomy -/

/-- The error taxonomy of the spec (§7). `UnknownSelectorType` is the
failure of the closed strategy-mapping lookup
(`functions[selector_type]`, a `KeyError` in the source);
`InsufficientAlgorithms` is the failure of the random sampler when more
algorithms are requested than are configured (a `ValueError` raised by
`random.sample` in the source). -/
inductive BenchError where
  | UnknownSelectorType (tag : String)
  | InsufficientAlgorithms (requested : ℕ) (configured : ℕ)
deriving DecidableEq

/-! ## Time-budget rescaling (`Benchmark.baseline_jobs`, lines 157–165) -/

/-- The rescaled baseline time-budget set: starting from the empty set,
for each `i` in `range(1, scale + 1)` union in `set(map(lambda x: x * i,
times))`, exactly as the loop in `baseline_jobs` builds `baseline_times`. -/
def rescaledTimes (times : List ℤ) (scale : ℕ) : Finset ℤ :=
  (List.range scale).foldl
    (fun acc (i : ℕ) => acc ∪ (times.map fun x => x * ((i : ℤ) + 1)).toFinset) ∅

theorem rescaledTimes_succ (times : List ℤ) (s : ℕ) :
    rescaledTimes times (s + 1)
      = rescaledTimes times s ∪ (times.map fun x => x * ((s : ℤ) + 1)).toFinset := by
  simp only [rescaledTimes, List.range_succ, List.foldl_append, List.foldl_cons,
    List.foldl_nil]

theorem mem_rescaledTimes (times : List ℤ) (scale : ℕ) (x : ℤ) :
    x ∈ rescaledTimes times scale ↔
      ∃ t ∈ times, ∃ i : ℕ, 1 ≤ i ∧ i ≤ scale ∧ x = t * (i : ℤ) := by
  induction scale with
  | zero =>
    simp only [rescaledTimes, List.range_zero, List.foldl_nil,
      Finset.not_mem_empty, false_iff]
    rintro ⟨t, _, i, h1, h2, _⟩
    omega
  | succ s ih =>
    rw [rescaledTimes_succ, Finset.mem_union, ih, List.mem_toFinset,
      List.mem_map]
    constructor
    · rintro (⟨t, ht, i, h1, h2, hx⟩ | ⟨t, ht, hx⟩)
      · exact ⟨t, ht, i, h1, Nat.le_succ_of_le h2, hx⟩
      · refine ⟨t, ht, s + 1, Nat.succ_le_succ (Nat.zero_le s), le_refl _, ?_⟩
        rw [← hx]
        push_cast
        ring
    · rintro ⟨t, ht, i, h1, h2, hx⟩
      rcases Nat.lt_or_ge i (s + 1) with hlt | hge
      · exact Or.inl ⟨t, ht, i, h1, Nat.lt_succ_iff.mp hlt, hx⟩
      · have hi : i = s + 1 := Nat.le_antisymm h2 hge
        subst hi
        refine Or.inr ⟨t, ht, ?_⟩
        rw [hx]
        push_cast
        ring

/-! ## Deterministic random subset selection
(`Benchmark.selector_jobs_n_random`, lines 250–288) -/

/-- Modelled from the spec: the pseudo-random generator behind
`random.Random` is the Python standard library's Mersenne Twister,
external to this repository.  The spec relies only on it being "a
pseudo-random generator initialized with derived seed" whose output is a
pure function of that seed; it is modelled as a linear congruential
generator over 64-bit state. -/
structure PyRandom where
  state : ℕ
deriving DecidableEq

/-- `Random(seed)`: generator initialisation from an integer seed. -/
def PyRandom.init (seed : ℤ) : PyRandom :=
  ⟨seed.natAbs % 2 ^ 64⟩

/-- One raw generator step. -/
def PyRandom.next (g : PyRandom) : ℕ × PyRandom :=
  let s := (6364136223846793005 * g.state + 1442695040888963407) % 2 ^ 64
  (s, ⟨s⟩)

/-- A draw below `n`, modelled by reducing the next raw output modulo `n`. -/
def PyRandom.randbelow (g : PyRandom) (n : ℕ) : ℕ × PyRandom :=
  ((g.next).1 % n, (g.next).2)

/-- Modelled from the spec: the draw-without-replacement loop of
`random.Random.sample` (external standard library): `k` successive draws,
each removing the drawn element from the remaining pool, results listed in
draw order — the "selection is not re-sorted". -/
def sampleAux : PyRandom → List String → ℕ → List String
  | _, _, 0 => []
  | g, pool, k + 1 =>
    let p := g.randbelow pool.length
    pool.getD p.1 "" :: sampleAux p.2 (pool.eraseIdx p.1) k

/-- `random.Random(seed).sample(population, k)`: a `ValueError` ("Sample
larger than population") — the spec's `InsufficientAlgorithms` — when `k`
exceeds the population size, otherwise `k` draws without replacement. -/
def pySample (seed : ℤ) (population : List String) (k : ℕ) :
    Except BenchError (List String) :=
  if k ≤ population.length then
    .ok (sampleAux (PyRandom.init seed) population k)
  else
    .error (.InsufficientAlgorithms k population.length)

theorem sampleAux_length (k : ℕ) :
    ∀ (g : PyRandom) (pool : List String), k ≤ pool.length →
      (sampleAux g pool k).length = k := by
  induction k with
  | zero => intro g pool _; rfl
  | succ k ih =>
    intro g pool hk
    have hpos : 0 < pool.length := Nat.lt_of_lt_of_le (Nat.succ_pos k) hk
    have hj : ((g.randbelow pool.length).1) < pool.length :=
      Nat.mod_lt _ hpos
    have herase : (pool.eraseIdx (g.randbelow pool.length).1).length + 1
        = pool.length := List.length_eraseIdx_add_one hj
    simp only [sampleAux, List.length_cons]
    rw [ih _ _ (by omega)]

theorem sampleAux_subset (k : ℕ) :
    ∀ (g : PyRandom) (pool : List String), k ≤ pool.length →
      ∀ x ∈ sampleAux g pool k, x ∈ pool := by
  induction k with
  | zero => intro g pool _ x hx; simp [sampleAux] at hx
  | succ k ih =>
    intro g pool hk x hx
    have hpos : 0 < pool.length := Nat.lt_of_lt_of_le (Nat.succ_pos k) hk
    have hj : ((g.randbelow pool.length).1) < pool.length :=
      Nat.mod_lt _ hpos
    have herase : (pool.eraseIdx (g.randbelow pool.length).1).length + 1
        = pool.length := List.length_eraseIdx_add_one hj
    simp only [sampleAux, List.mem_cons] at hx
    rcases hx with hx | hx
    · have hgetD : pool.getD (g.randbelow pool.length).1 "" = pool.get ⟨_, hj⟩ := by
        simp [List.getD_eq_getElem?_getD, List.getElem?_eq_getElem hj]
      rw [hx, hgetD]
      exact List.get_mem pool _ hj
    · exact (List.eraseIdx_sublist pool _).subset (ih _ _ (by omega) x hx)

theorem pySample_ok_length (seed : ℤ) (population : List String) (k : ℕ)
    (l : List String) (h : pySample seed population k = .ok l) :
    l.length = k := by
  unfold pySample at h
  split at h
  · cases h
    exact sampleAux_length k _ population (by assumption)
  · cases h

theorem pySample_ok_subset (seed : ℤ) (population : List String) (k : ℕ)
    (l : List String) (h : pySample seed population k = .ok l) :
    ∀ x ∈ l, x ∈ population := by
  unfold pySample at h
  split at h
  · cases h
    exact sampleAux_subset k _ population (by assumption)
  · cases h

theorem pySample_error (seed : ℤ) (population : List String) (k : ℕ)
    (h : population.length < k) :
    pySample seed population k
      = .error (.InsufficientAlgorithms k population.length) := by
  unfold pySample
  rw [if_neg (by omega)]

/-! ## Leaf job factories (`Benchmark.algorithm_jobs`, `Benchmark.baseline_jobs`) -/

/-- The constructor call `SingleAlgorithmJob(self.env, seed, times, task,
root, split, algo, single_algorithm_runner)`, exactly as it appears — with
identical arguments — in `algorithm_jobs` (line 135), `selector_jobs_all`
(line 217) and `selector_jobs_n_random` (line 279). -/
def Benchmark.mkSingleAlgorithmJob (b : Benchmark) (seed : ℤ) (task : ℤ)
    (split : Split) (algo : String) : SingleAlgorithmJob :=
  { env := b.env, seed := seed, times := b.config.times_in_mins,
    task := task, root := b.root, split := split, algorithm := algo,
    runner := single_algorithm_runner }

/-- `Benchmark.algorithm_jobs` (lines 117–139): one `SingleAlgorithmJob`
per element of `product(seeds, tasks, splits, algorithms)`, each carrying
the full configured `times_in_mins`. -/
def Benchmark.algorithm_jobs (b : Benchmark) : List SingleAlgorithmJob :=
  (listProd4 b.config.seeds b.config.openml_tasks b.config.data_splits
      b.config.algorithms).map
    fun q => b.mkSingleAlgorithmJob q.1 q.2.1 q.2.2.1 q.2.2.2

/-- `Benchmark.baseline_jobs` (lines 141–172): one `BaselineJob` per
element of `product(seeds, tasks, splits)`, each carrying the rescaled
time-budget set. -/
def Benchmark.baseline_jobs (b : Benchmark) : List BaselineJob :=
  (listProd3 b.config.seeds b.config.openml_tasks b.config.data_splits).map
    fun q =>
      { env := b.env, seed := q.1,
        times := rescaledTimes b.config.times_in_mins b.config.baselines.scale,
        task := q.2.1, root := b.root, split := q.2.2,
        runner := baseline_runner }

/-! ## Selector strategies (`Benchmark.selector_jobs_*`) -/

/-- `Benchmark.selector_jobs_all` (lines 198–227): one `SelectorJob` per
`product(seeds, tasks, splits)`, each depending on freshly built
`SingleAlgorithmJob`s for every configured algorithm. -/
def Benchmark.selector_jobs_all (b : Benchmark)
    (selector_config : SelectorSpec) : List SelectorJob :=
  (listProd3 b.config.seeds b.config.openml_tasks b.config.data_splits).map
    fun q =>
      { env := b.env, seed := q.1, times := b.config.times_in_mins,
        task := q.2.1, root := b.root, split := q.2.2,
        runner := selector_runner, name := selector_config.name,
        algorithm_jobs :=
          b.config.algorithms.map fun algo =>
            b.mkSingleAlgorithmJob q.1 q.2.1 q.2.2 algo }

/-- `Benchmark.selector_jobs_n_top` (lines 229–234): unimplemented in the
source (`# TODO`), returns the empty list. -/
def Benchmark.selector_jobs_n_top (b : Benchmark)
    (selector_config : SelectorSpec) : List SelectorJob := []

/-- `Benchmark.selector_jobs_n_least_overlapping` (lines 236–241):
unimplemented in the source (`# TODO`), returns the empty list. -/
def Benchmark.selector_jobs_n_least_overlapping (b : Benchmark)
    (selector_config : SelectorSpec) : List SelectorJob := []

/-- `Benchmark.selector_jobs_n_most_coverage` (lines 243–248):
unimplemented in the source (`# TODO`), returns the empty list. -/
def Benchmark.selector_jobs_n_most_coverage (b : Benchmark)
    (selector_config : SelectorSpec) : List SelectorJob := []

/-- `Benchmark.selector_jobs_n_random` (lines 250–288): for each
configured selection seed, a named sub-selector `"{name}_{seed}"` samples
`n` algorithms with `Random(selection_seed * n_algorithms)`, then one
`SelectorJob` per `product(seeds, tasks, splits)` depends on fresh
`SingleAlgorithmJob`s for exactly the sampled algorithms.  The inner
product loop for one sub-selector: -/
def Benchmark.randomSeedJobs (b : Benchmark) (name : String)
    (random_algorithms : List String) : List SelectorJob :=
  (listProd3 b.config.seeds b.config.openml_tasks b.config.data_splits).map
    fun q =>
      { env := b.env, seed := q.1, times := b.config.times_in_mins,
        task := q.2.1, root := b.root, split := q.2.2,
        runner := selector_runner, name := name,
        algorithm_jobs := random_algorithms.map fun algo =>
          b.mkSingleAlgorithmJob q.1 q.2.1 q.2.2 algo }

/-- The accumulation loop of `selector_jobs_n_random` over the zipped
`(selection_seed, sub-selector name)` pairs: sample, extend the job list;
a raised sampling error propagates and discards the accumulation. -/
def Benchmark.n_random_aux (b : Benchmark) (n_algorithms : ℕ) :
    List (ℤ × String) → Except BenchError (List SelectorJob)
  | [] => .ok []
  | p :: rest =>
    match pySample (p.1 * (n_algorithms : ℤ)) b.config.algorithms
        n_algorithms with
    | .error e => .error e
    | .ok random_algorithms =>
      match b.n_random_aux n_algorithms rest with
      | .error e => .error e
      | .ok more => .ok (b.randomSeedJobs p.2 random_algorithms ++ more)

/-- `Benchmark.selector_jobs_n_random` (lines 250–288): derive the
sub-selector names `"{name}_{selection_seed}"` and run the accumulation
loop over the selection seeds. -/
def Benchmark.selector_jobs_n_random (b : Benchmark)
    (selector_config : SelectorSpec) : Except BenchError (List SelectorJob) :=
  let selection_seeds := selector_config.selection_seeds
  let selector_names := selection_seeds.map
    fun s => selector_config.name ++ "_" ++ toString s
  b.n_random_aux selector_config.n (selection_seeds.zip selector_names)

/-- The closed strategy mapping `functions` of `Benchmark.selector_jobs`
(lines 182–188) applied to one spec: the dict-lookup failure (`KeyError`)
for a tag outside the mapping is the spec's `UnknownSelectorType` error. -/
def Benchmark.get_selector (b : Benchmark) (selector_config : SelectorSpec) :
    Except BenchError (List SelectorJob) :=
  match selector_config.type with
  | "all" => .ok (b.selector_jobs_all selector_config)
  | "top_n" => .ok (b.selector_jobs_n_top selector_config)
  | "n_most_coverage" => .ok (b.selector_jobs_n_most_coverage selector_config)
  | "n_random_selection" => b.selector_jobs_n_random selector_config
  | "n_least_overlapping" =>
    .ok (b.selector_jobs_n_least_overlapping selector_config)
  | tag => .error (.UnknownSelectorType tag)

/-- `Benchmark.selector_jobs` (lines 174–196): for each selector spec in
configuration order, dispatch by type tag and concatenate the produced
lists; the first raised error aborts the whole call (Python exception
propagation discards the partial accumulation).  The accumulation loop: -/
def Benchmark.selector_jobs_aux (b : Benchmark) :
    List SelectorSpec → Except BenchError (List SelectorJob)
  | [] => .ok []
  | sc :: rest =>
    match b.get_selector sc with
    | .error e => .error e
    | .ok js =>
      match b.selector_jobs_aux rest with
      | .error e => .error e
      | .ok more => .ok (js ++ more)

/-- `Benchmark.selector_jobs` (lines 174–196). -/
def Benchmark.selector_jobs (b : Benchmark) :
    Except BenchError (List SelectorJob) :=
  b.selector_jobs_aux b.config.selectors

/-! ## Job query/filter facade (`Benchmark.jobs`, lines 90–115) -/

/-- The keys of the `job_filters` dispatch dict (lines 30–40). -/
inductive FilterType where
  | ready
  | failed
  | blocked
  | pending
  | running
  | complete
  | in_progress
deriving DecidableEq

/-- The lifecycle state of the external execution backend: the spec
delegates each of the seven lifecycle queries "unmodified to the
corresponding query on the external job/backend object", so the backend
is modelled as an explicit family of boolean predicates on jobs. -/
structure BackendState where
  ready : TPOTJob → Bool
  failed : TPOTJob → Bool
  blocked : TPOTJob → Bool
  pending : TPOTJob → Bool
  running : TPOTJob → Bool
  complete : TPOTJob → Bool
  in_progress : TPOTJob → Bool

/-- The `job_filters` dispatch dict (lines 32–40): each named filter is
the corresponding delegated lifecycle query. -/
def job_filters (st : BackendState) : FilterType → (TPOTJob → Bool)
  | .ready => st.ready
  | .failed => st.failed
  | .blocked => st.blocked
  | .pending => st.pending
  | .running => st.running
  | .complete => st.complete
  | .in_progress => st.in_progress

/-- `Benchmark.jobs` (lines 90–115): chain algorithm, selector and
baseline jobs in that order, then optionally filter by the named
lifecycle predicate. -/
def Benchmark.jobs (b : Benchmark) (st : BackendState)
    (filter_by : Option FilterType) : Except BenchError (List TPOTJob) :=
  match b.selector_jobs with
  | .error e => .error e
  | .ok sel =>
    let job_iter := b.algorithm_jobs.map TPOTJob.alg
      ++ sel.map TPOTJob.sel ++ b.baseline_jobs.map TPOTJob.base
    match filter_by with
    | some f => .ok (job_iter.filter (job_filters st f))
    | none => .ok job_iter

/-! ## A small concrete configuration, used to instantiate the theorems -/

def exampleSplit : Split := ⟨1 / 2, 3 / 10, 1 / 5⟩

def exampleConfig : BenchmarkConfig :=
  { id := "tpot_bench"
    dir := "./data"
    username := "eb130475"
    seeds := [5]
    times_in_mins := [30, 60]
    openml_tasks := [3]
    data_splits := [exampleSplit]
    algorithms := ["NB", "TR"]
    selectors := [{ type := "all", name := "ALL" }]
    baselines := ⟨3⟩ }

def exampleBench : Benchmark := Benchmark.ofConfig exampleConfig

/-! ## C1 — algorithm job enumeration -/

/-- **C1.** For every configuration, `algorithm_jobs` returns exactly one
job per element of the cartesian product seeds × tasks × splits ×
algorithms, in the product's lexicographic nesting order (seed outermost,
algorithm innermost), each job carrying the full configured list of time
budgets; its length equals |seeds|·|tasks|·|splits|·|algorithms|, and the
list is empty exactly when some input dimension is empty. -/
theorem algorithm_jobs_product (b : Benchmark) :
    b.algorithm_jobs.map (fun j => (j.seed, j.task, j.split, j.algorithm))
        = listProd4 b.config.seeds b.config.openml_tasks b.config.data_splits
            b.config.algorithms
    ∧ (∀ j ∈ b.algorithm_jobs, j.times = b.config.times_in_mins)
    ∧ b.algorithm_jobs.length
        = b.config.seeds.length * b.config.openml_tasks.length
          * b.config.data_splits.length * b.config.algorithms.length
    ∧ (b.algorithm_jobs = [] ↔
        b.config.seeds = [] ∨ b.config.openml_tasks = []
        ∨ b.config.data_splits = [] ∨ b.config.algorithms = []) := by
  have hlen : b.algorithm_jobs.length
      = b.config.seeds.length * b.config.openml_tasks.length
        * b.config.data_splits.length * b.config.algorithms.length := by
    unfold Benchmark.algorithm_jobs
    rw [List.length_map, length_listProd4]
  refine ⟨?_, ?_, hlen, ?_⟩
  · unfold Benchmark.algorithm_jobs
    rw [List.map_map]
    have hid : ((fun j : SingleAlgorithmJob =>
          (j.seed, j.task, j.split, j.algorithm))
        ∘ fun q : ℤ × ℤ × Split × String =>
          b.mkSingleAlgorithmJob q.1 q.2.1 q.2.2.1 q.2.2.2) = id := by
      funext q
      rcases q with ⟨s, t, sp, a⟩
      rfl
    rw [hid, List.map_id]
  · intro j hj
    unfold Benchmark.algorithm_jobs at hj
    rcases List.mem_map.mp hj with ⟨q, _, rfl⟩
    rfl
  · constructor
    · intro h
      have h0 : b.config.seeds.length * b.config.openml_tasks.length
          * b.config.data_splits.length * b.config.algorithms.length = 0 := by
        rw [← hlen, h]
        rfl
      have := by simpa [Nat.mul_eq_zero, List.length_eq_zero] using h0
      tauto
    · intro h
      have h0 : b.algorithm_jobs.length = 0 := by
        rw [hlen]
        rcases h with h | h | h | h <;> simp [h]
      exact List.length_eq_zero.mp h0

/-- Instantiation of `algorithm_jobs_product` on the concrete example
configuration: 1 seed · 1 task · 1 split · 2 algorithms = 2 jobs, every
one carrying the full `[30, 60]` budget list. -/
theorem algorithm_jobs_product_witness :
    exampleBench.algorithm_jobs.length = 1 * 1 * 1 * 2
    ∧ exampleBench.algorithm_jobs.map
        (fun j => (j.seed, j.task, j.split, j.algorithm))
      = listProd4 [5] [3] [exampleSplit] ["NB", "TR"] :=
  ⟨(algorithm_jobs_product exampleBench).2.2.1,
   (algorithm_jobs_product exampleBench).1⟩

/-! ## C2 — baseline job enumeration and time-budget rescaling -/

/-- **C2.** For every configuration with time-budget list `T` and scale
`S ≥ 1`, `baseline_jobs` returns exactly one `BaselineJob` per element of
seeds × tasks × splits, and each job's time-budget set is exactly the
deduplicated set `⋃ i = 1..S, {t·i : t ∈ T}`. -/
theorem baseline_jobs_rescaled (b : Benchmark)
    (hscale : 1 ≤ b.config.baselines.scale) :
    b.baseline_jobs.map (fun j => (j.seed, j.task, j.split))
        = listProd3 b.config.seeds b.config.openml_tasks b.config.data_splits
    ∧ b.baseline_jobs.length
        = b.config.seeds.length * b.config.openml_tasks.length
          * b.config.data_splits.length
    ∧ ∀ j ∈ b.baseline_jobs, ∀ x : ℤ,
        x ∈ j.times ↔
          ∃ t ∈ b.config.times_in_mins, ∃ i : ℕ,
            1 ≤ i ∧ i ≤ b.config.baselines.scale ∧ x = t * (i : ℤ) := by
  refine ⟨?_, ?_, ?_⟩
  · unfold Benchmark.baseline_jobs
    rw [List.map_map]
    have hid : ((fun j : BaselineJob => (j.seed, j.task, j.split))
        ∘ fun q : ℤ × ℤ × Split =>
          ({ env := b.env, seed := q.1,
             times := rescaledTimes b.config.times_in_mins
               b.config.baselines.scale,
             task := q.2.1, root := b.root, split := q.2.2,
             runner := baseline_runner } : BaselineJob)) = id := by
      funext q
      rcases q with ⟨s, t, sp⟩
      rfl
    rw [hid, List.map_id]
  · unfold Benchmark.baseline_jobs
    rw [List.length_map, length_listProd3]
  · intro j hj x
    unfold Benchmark.baseline_jobs at hj
    rcases List.mem_map.mp hj with ⟨q, _, rfl⟩
    exact mem_rescaledTimes _ _ x

/-- The worked example the claim gives for the rescaling contract is
wrong: for `T = [30, 60]` and `S = 3` the deduplicated union
`⋃ i = 1..3, {30·i, 60·i} = {30, 60, 90} ∪ {60, 120, 180}` is
`{30, 60, 90, 120, 180}` — five distinct values, and `150` (which is
neither `30·i` nor `60·i` for any `i ≤ 3`) is not among them. -/
theorem rescale_example_counterexample :
    rescaledTimes [30, 60] 3 ≠ ({30, 60, 90, 120, 150, 180} : Finset ℤ)
    ∧ (150 : ℤ) ∉ rescaledTimes [30, 60] 3
    ∧ rescaledTimes [30, 60] 3 = ({30, 60, 90, 120, 180} : Finset ℤ)
    ∧ (rescaledTimes [30, 60] 3).card = 5 := by
  refine ⟨by decide, by decide, by decide, by decide⟩

/-- Instantiation of `baseline_jobs_rescaled` on the example configuration
(`T = [30, 60]`, `S = 3`), together with the corrected worked example: the
rescaled set is exactly `{30, 60, 90, 120, 180}` — five distinct
values. -/
theorem baseline_jobs_rescaled_witness :
    1 ≤ exampleBench.config.baselines.scale
    ∧ exampleBench.baseline_jobs.length
        = exampleBench.config.seeds.length
          * exampleBench.config.openml_tasks.length
          * exampleBench.config.data_splits.length
    ∧ rescaledTimes [30, 60] 3 = ({30, 60, 90, 120, 180} : Finset ℤ)
    ∧ (rescaledTimes [30, 60] 3).card = 5 :=
  ⟨by decide, (baseline_jobs_rescaled exampleBench (by decide)).2.1,
   by decide, by decide⟩

/-! ## C3 — deterministic random subset selection -/

/-- **C3.** For every algorithm list `A`, count `n ≤ |A|` (enforced by the
successful-sampling hypotheses) and selection seed `s`, the random subset
selection is driven by a pseudo-random generator initialized with the
derived seed `s·n`, and any two invocations with identical `(A, n, s)`
return the identical subset of size `n` with identical element ordering
(the selection is not re-sorted). -/
theorem random_selection_deterministic (A : List String) (n : ℕ) (s : ℤ)
    (l₁ l₂ : List String)
    (h₁ : pySample (s * (n : ℤ)) A n = .ok l₁)
    (h₂ : pySample (s * (n : ℤ)) A n = .ok l₂) :
    l₁ = l₂
    ∧ l₁ = sampleAux (PyRandom.init (s * (n : ℤ))) A n
    ∧ l₁.length = n
    ∧ ∀ x ∈ l₁, x ∈ A := by
  have h12 : l₁ = l₂ := Except.ok.inj (h₁.symm.trans h₂)
  refine ⟨h12, ?_, pySample_ok_length _ _ _ _ h₁,
    pySample_ok_subset _ _ _ _ h₁⟩
  unfold pySample at h₁
  split at h₁
  · exact (Except.ok.inj h₁).symm
  · cases h₁

/-- Instantiation of `random_selection_deterministic` at
`(A, n, s) = (["NB", "TR"], 1, 7)`: both invocations return `["NB"]`. -/
theorem random_selection_deterministic_witness :
    (["NB"] : List String) = ["NB"]
    ∧ (["NB"] : List String)
        = sampleAux (PyRandom.init ((7 : ℤ) * ((1 : ℕ) : ℤ))) ["NB", "TR"] 1
    ∧ (["NB"] : List String).length = 1
    ∧ ∀ x ∈ (["NB"] : List String), x ∈ (["NB", "TR"] : List String) :=
  random_selection_deterministic ["NB", "TR"] 1 7 ["NB"] ["NB"] rfl rfl

/-! ## C4 — the "all" selector strategy -/

/-- **C4.** For every configuration, the "all" strategy produces exactly
one `SelectorJob` per (seed, task, split), and each such job depends on
exactly one freshly built `AlgorithmJob` per configured algorithm, each
dependency sharing the job's (seed, task, split) and built with exactly
the identity-determining parameters the leaf factory uses
(`mkSingleAlgorithmJob` is the very constructor call of
`algorithm_jobs`). -/
theorem selector_all_dependencies (b : Benchmark) (sc : SelectorSpec) :
    (b.selector_jobs_all sc).map (fun j => (j.seed, j.task, j.split))
        = listProd3 b.config.seeds b.config.openml_tasks b.config.data_splits
    ∧ ∀ j ∈ b.selector_jobs_all sc,
        j.name = sc.name
        ∧ j.algorithm_jobs
            = b.config.algorithms.map (b.mkSingleAlgorithmJob j.seed j.task j.split)
        ∧ j.algorithm_jobs.length = b.config.algorithms.length
        ∧ ∀ d ∈ j.algorithm_jobs,
            d.seed = j.seed ∧ d.task = j.task ∧ d.split = j.split
            ∧ d.times = b.config.times_in_mins ∧ d.env = b.env
            ∧ d.root = b.root ∧ d.runner = single_algorithm_runner := by
  constructor
  · unfold Benchmark.selector_jobs_all
    rw [List.map_map]
    have hid : ((fun j : SelectorJob => (j.seed, j.task, j.split))
        ∘ fun q : ℤ × ℤ × Split =>
          ({ env := b.env, seed := q.1, times := b.config.times_in_mins,
             task := q.2.1, root := b.root, split := q.2.2,
             runner := selector_runner, name := sc.name,
             algorithm_jobs := b.config.algorithms.map fun algo =>
               b.mkSingleAlgorithmJob q.1 q.2.1 q.2.2 algo } : SelectorJob))
        = id := by
      funext q
      rcases q with ⟨s, t, sp⟩
      rfl
    rw [hid, List.map_id]
  · intro j hj
    unfold Benchmark.selector_jobs_all at hj
    rcases List.mem_map.mp hj with ⟨q, _, rfl⟩
    refine ⟨rfl, rfl, by rw [List.length_map], ?_⟩
    intro d hd
    rcases List.mem_map.mp hd with ⟨algo, _, rfl⟩
    exact ⟨rfl, rfl, rfl, rfl, rfl, rfl, rfl⟩

/-- Instantiation of `selector_all_dependencies` on the example
configuration: one selector job (1 seed · 1 task · 1 split), whose
dependency list has one entry per configured algorithm. -/
theorem selector_all_dependencies_witness :
    (exampleBench.selector_jobs_all { type := "all", name := "ALL" }).map
        (fun j => (j.seed, j.task, j.split))
      = listProd3 [5] [3] [exampleSplit]
    ∧ ∀ j ∈ exampleBench.selector_jobs_all { type := "all", name := "ALL" },
        j.algorithm_jobs.length = 2 :=
  ⟨(selector_all_dependencies exampleBench { type := "all", name := "ALL" }).1,
   fun j hj => (((selector_all_dependencies exampleBench
      { type := "all", name := "ALL" }).2 j hj).2.2.1)⟩

/-! ## C5/C6 — selector error handling -/

theorem get_selector_tag_n_random (b : Benchmark) (sc : SelectorSpec)
    (h : sc.type = "n_random_selection") :
    b.get_selector sc = b.selector_jobs_n_random sc := by
  rcases sc with ⟨ty, name, n, seeds⟩
  cases h
  rfl

/-- If any configured spec's resolution raises, the accumulation loop of
`selector_jobs` raises (Python exception propagation: no partial list is
returned). -/
theorem selector_jobs_aux_error (b : Benchmark) (l : List SelectorSpec)
    (sc : SelectorSpec) (hmem : sc ∈ l) (e : BenchError)
    (he : b.get_selector sc = .error e) :
    ∃ e', b.selector_jobs_aux l = .error e' := by
  induction l with
  | nil => cases hmem
  | cons x xs ih =>
    simp only [Benchmark.selector_jobs_aux]
    rcases List.mem_cons.mp hmem with rfl | hmem'
    · rw [he]
      exact ⟨e, rfl⟩
    · cases hx : b.get_selector x with
      | error e0 => exact ⟨e0, rfl⟩
      | ok js =>
        rcases ih hmem' with ⟨e', he'⟩
        rw [he']
        exact ⟨e', rfl⟩

/-- **C5.** For every configuration containing a selector spec whose type
tag is outside the closed strategy mapping, that spec's resolution fails
with `UnknownSelectorType` (and produces no partial job list for the
spec), and the whole selector resolution fails. -/
theorem unknown_selector_type_fails (b : Benchmark) (sc : SelectorSpec)
    (hmem : sc ∈ b.config.selectors)
    (hty : sc.type ∉ (["all", "top_n", "n_most_coverage",
        "n_random_selection", "n_least_overlapping"] : List String)) :
    b.get_selector sc = .error (.UnknownSelectorType sc.type)
    ∧ (b.selector_jobs).isOk = false := by
  have hget : b.get_selector sc = .error (.UnknownSelectorType sc.type) := by
    unfold Benchmark.get_selector
    split
    all_goals simp_all
  refine ⟨hget, ?_⟩
  rcases selector_jobs_aux_error b b.config.selectors sc hmem _ hget
    with ⟨e', he'⟩
  unfold Benchmark.selector_jobs
  rw [he']
  rfl

def bogusSpec : SelectorSpec := { type := "bogus", name := "B" }

def bogusBench : Benchmark :=
  Benchmark.ofConfig { exampleConfig with selectors := [bogusSpec] }

/-- Instantiation of `unknown_selector_type_fails` at a configuration
whose single selector spec has the unknown tag `"bogus"`. -/
theorem unknown_selector_type_fails_witness :
    bogusBench.get_selector bogusSpec
        = .error (.UnknownSelectorType "bogus")
    ∧ (bogusBench.selector_jobs).isOk = false :=
  unknown_selector_type_fails bogusBench bogusSpec (by decide) (by decide)

/-- **C6 (amended).** For every configuration with a configured
random-selection spec requesting more algorithms than are configured (and
at least one selection seed, so that sampling is actually attempted), the
random sampler fails with `InsufficientAlgorithms` — and the error is
fatal for the *whole* enumeration: `selector_jobs` and `jobs` propagate
it and return no job list at all. -/
theorem insufficient_algorithms_fatal (b : Benchmark) (sc : SelectorSpec)
    (st : BackendState)
    (hmem : sc ∈ b.config.selectors)
    (hty : sc.type = "n_random_selection")
    (hn : b.config.algorithms.length < sc.n)
    (hseeds : sc.selection_seeds ≠ []) :
    b.selector_jobs_n_random sc
        = .error (.InsufficientAlgorithms sc.n b.config.algorithms.length)
    ∧ (b.selector_jobs).isOk = false
    ∧ (b.jobs st none).isOk = false := by
  have hrand : b.selector_jobs_n_random sc
      = .error (.InsufficientAlgorithms sc.n b.config.algorithms.length) := by
    unfold Benchmark.selector_jobs_n_random
    rcases hsl : sc.selection_seeds with _ | ⟨s, ss⟩
    · exact absurd hsl hseeds
    · simp only [List.map_cons, List.zip_cons_cons, Benchmark.n_random_aux]
      rw [pySample_error _ _ _ hn]
  have hget : b.get_selector sc
      = .error (.InsufficientAlgorithms sc.n b.config.algorithms.length) :=
    (get_selector_tag_n_random b sc hty).trans hrand
  rcases selector_jobs_aux_error b b.config.selectors sc hmem _ hget
    with ⟨e', he'⟩
  have hsel : b.selector_jobs = .error e' := he'
  refine ⟨hrand, ?_, ?_⟩
  · rw [Benchmark.selector_jobs] at hsel ⊢
    rw [hsel]
    rfl
  · unfold Benchmark.jobs
    rw [hsel]
    rfl

def ranSpec : SelectorSpec :=
  { type := "n_random_selection", name := "RAN2", n := 2,
    selection_seeds := [1] }

def insufficientBench : Benchmark :=
  Benchmark.ofConfig { exampleConfig with
    algorithms := ["NB"]
    selectors := [ranSpec, { type := "all", name := "ALL" }] }

/-- A trivial concrete lifecycle state for the external backend. -/
def trivialBackend : BackendState :=
  ⟨fun _ => true, fun _ => false, fun _ => false, fun _ => false,
   fun _ => false, fun _ => true, fun _ => false⟩

/-- The claim asserts the `InsufficientAlgorithms` failure is "fatal for
that selector instance but not for the whole graph"; in the code the
exception propagates uncaught.  Concretely: with a single configured
algorithm, a random spec requesting `n = 2` followed by a second, valid
"all" spec, the whole enumeration returns an error and no job list at all
— in particular the valid "all" spec's jobs are not produced. -/
theorem insufficient_algorithms_counterexample :
    insufficientBench.selector_jobs_n_random ranSpec
        = .error (.InsufficientAlgorithms 2 1)
    ∧ insufficientBench.selector_jobs = .error (.InsufficientAlgorithms 2 1)
    ∧ insufficientBench.jobs trivialBackend none
        = .error (.InsufficientAlgorithms 2 1) :=
  ⟨rfl, rfl, rfl⟩

/-- Instantiation of `insufficient_algorithms_fatal` on the concrete
configuration of the counterexample. -/
theorem insufficient_algorithms_fatal_witness :
    insufficientBench.selector_jobs_n_random ranSpec
        = .error (.InsufficientAlgorithms 2
            insufficientBench.config.algorithms.length)
    ∧ (insufficientBench.selector_jobs).isOk = false
    ∧ (insufficientBench.jobs trivialBackend none).isOk = false :=
  insufficient_algorithms_fatal insufficientBench ranSpec trivialBackend
    (by decide) rfl (by decide) (by decide)

/-! ## C7 — lifecycle filtering -/

/-- **C7.** For every configuration and named lifecycle predicate,
`jobs(filter_by=p)` returns exactly the sublist of `jobs()` whose
elements satisfy the (delegated, unmodified) predicate: every returned
job satisfies it and no omitted job does. -/
theorem jobs_filter_correct (b : Benchmark) (st : BackendState)
    (f : FilterType) (L Lf : List TPOTJob)
    (hL : b.jobs st none = .ok L)
    (hLf : b.jobs st (some f) = .ok Lf) :
    Lf = L.filter (job_filters st f)
    ∧ ∀ j, j ∈ Lf ↔ j ∈ L ∧ job_filters st f j = true := by
  unfold Benchmark.jobs at hL hLf
  cases hsel : b.selector_jobs with
  | error e =>
    rw [hsel] at hL
    cases hL
  | ok sel =>
    rw [hsel] at hL hLf
    have hL2 : L = b.algorithm_jobs.map TPOTJob.alg ++ sel.map TPOTJob.sel
        ++ b.baseline_jobs.map TPOTJob.base := (Except.ok.inj hL).symm
    have hLf2 : Lf = (b.algorithm_jobs.map TPOTJob.alg ++ sel.map TPOTJob.sel
        ++ b.baseline_jobs.map TPOTJob.base).filter (job_filters st f) :=
      (Except.ok.inj hLf).symm
    subst hL2
    refine ⟨hLf2, ?_⟩
    intro j
    rw [hLf2, List.mem_filter]

def partialBackend : BackendState :=
  { ready := fun _ => true
    failed := fun _ => false
    blocked := fun _ => false
    pending := fun _ => false
    running := fun _ => false
    complete := fun j => match j with | .base _ => true | _ => false
    in_progress := fun _ => false }

def emptySelBench : Benchmark :=
  Benchmark.ofConfig { exampleConfig with selectors := [] }

def emptySelJobs : List TPOTJob :=
  emptySelBench.algorithm_jobs.map TPOTJob.alg
    ++ ([] : List SelectorJob).map TPOTJob.sel
    ++ emptySelBench.baseline_jobs.map TPOTJob.base

/-- Instantiation of `jobs_filter_correct` on a concrete configuration
and a backend state whose `complete` query holds exactly on baseline
jobs. -/
theorem jobs_filter_correct_witness :
    emptySelJobs.filter (job_filters partialBackend .complete)
        = emptySelJobs.filter (job_filters partialBackend .complete)
    ∧ ∀ j, j ∈ emptySelJobs.filter (job_filters partialBackend .complete)
        ↔ j ∈ emptySelJobs
          ∧ job_filters partialBackend .complete j = true :=
  jobs_filter_correct emptySelBench partialBackend .complete emptySelJobs
    (emptySelJobs.filter (job_filters partialBackend .complete)) rfl rfl

/-! ## C8 — concatenation order of the job sequence -/

/-- A successful selector resolution is the in-order concatenation of one
successfully resolved job list per configured spec. -/
theorem selector_jobs_aux_ok (b : Benchmark) (l : List SelectorSpec) :
    ∀ res, b.selector_jobs_aux l = .ok res →
      ∃ parts : List (List SelectorJob),
        List.Forall₂ (fun sc js => b.get_selector sc = .ok js) l parts
        ∧ res = parts.flatten := by
  induction l with
  | nil =>
    intro res h
    simp only [Benchmark.selector_jobs_aux] at h
    cases h
    exact ⟨[], List.Forall₂.nil, rfl⟩
  | cons x xs ih =>
    intro res h
    simp only [Benchmark.selector_jobs_aux] at h
    cases hx : b.get_selector x with
    | error e =>
      rw [hx] at h
      cases h
    | ok js =>
      rw [hx] at h
      cases haux : b.selector_jobs_aux xs with
      | error e =>
        rw [haux] at h
        cases h
      | ok more =>
        rw [haux] at h
        have hres : res = js ++ more := (Except.ok.inj h).symm
        rcases ih more haux with ⟨parts, hfa, hflat⟩
        refine ⟨js :: parts, List.Forall₂.cons hx hfa, ?_⟩
        rw [hres, hflat]
        rfl

/-- **C8.** For every configuration, the unfiltered `jobs()` sequence is
the concatenation of the algorithm jobs, then the selector jobs, then the
baseline jobs — the selector jobs themselves being the concatenation, in
configuration order, of each spec's strategy output with its internal
order preserved. -/
theorem jobs_concatenation (b : Benchmark) (st : BackendState)
    (sel : List SelectorJob) (hsel : b.selector_jobs = .ok sel) :
    b.jobs st none
        = .ok (b.algorithm_jobs.map TPOTJob.alg ++ sel.map TPOTJob.sel
            ++ b.baseline_jobs.map TPOTJob.base)
    ∧ ∃ parts : List (List SelectorJob),
        List.Forall₂ (fun sc js => b.get_selector sc = .ok js)
          b.config.selectors parts
        ∧ sel = parts.flatten := by
  constructor
  · unfold Benchmark.jobs
    rw [hsel]
  · exact selector_jobs_aux_ok b b.config.selectors sel hsel

def exampleSelJobs : List SelectorJob :=
  exampleBench.selector_jobs_all { type := "all", name := "ALL" } ++ []

/-- Instantiation of `jobs_concatenation` on the example configuration
(one "all" selector spec). -/
theorem jobs_concatenation_witness :
    exampleBench.jobs trivialBackend none
        = .ok (exampleBench.algorithm_jobs.map TPOTJob.alg
            ++ exampleSelJobs.map TPOTJob.sel
            ++ exampleBench.baseline_jobs.map TPOTJob.base)
    ∧ ∃ parts : List (List SelectorJob),
        List.Forall₂ (fun sc js => exampleBench.get_selector sc = .ok js)
          exampleBench.config.selectors parts
        ∧ exampleSelJobs = parts.flatten :=
  jobs_concatenation exampleBench trivialBackend exampleSelJobs rfl

/-! ## C9 — placeholder selector strategies -/

/-- **C9.** For every selector spec of type `top_n`,
`n_least_overlapping` or `n_most_coverage`, the corresponding strategy
returns the empty job list and its resolution succeeds without error. -/
theorem placeholder_selectors_empty (b : Benchmark) (sc : SelectorSpec)
    (hty : sc.type = "top_n" ∨ sc.type = "n_least_overlapping"
        ∨ sc.type = "n_most_coverage") :
    b.selector_jobs_n_top sc = []
    ∧ b.selector_jobs_n_least_overlapping sc = []
    ∧ b.selector_jobs_n_most_coverage sc = []
    ∧ b.get_selector sc = .ok [] := by
  refine ⟨rfl, rfl, rfl, ?_⟩
  rcases sc with ⟨ty, name, n, seeds⟩
  rcases hty with h | h | h
  all_goals cases h
  all_goals rfl

/-- Instantiation of `placeholder_selectors_empty` at a concrete `top_n`
spec. -/
theorem placeholder_selectors_empty_witness :
    exampleBench.selector_jobs_n_top { type := "top_n", name := "TOP3", n := 3 }
        = []
    ∧ exampleBench.selector_jobs_n_least_overlapping
        { type := "top_n", name := "TOP3", n := 3 } = []
    ∧ exampleBench.selector_jobs_n_most_coverage
        { type := "top_n", name := "TOP3", n := 3 } = []
    ∧ exampleBench.get_selector { type := "top_n", name := "TOP3", n := 3 }
        = .ok [] :=
  placeholder_selectors_empty exampleBench
    { type := "top_n", name := "TOP3", n := 3 } (Or.inl rfl)

/-! ## C10 — idempotent enumeration -/

/-- **C10.** For every configuration and backend state, any two calls to
each enumeration function yield the same result: equal job lists of equal
length with identical identity tuples in the same order. -/
theorem enumeration_idempotent (b : Benchmark) (st : BackendState)
    (r₁ r₂ : Except BenchError (List TPOTJob))
    (h₁ : b.jobs st none = r₁) (h₂ : b.jobs st none = r₂)
    (a₁ a₂ : List SingleAlgorithmJob)
    (ha₁ : b.algorithm_jobs = a₁) (ha₂ : b.algorithm_jobs = a₂)
    (c₁ c₂ : List BaselineJob)
    (hc₁ : b.baseline_jobs = c₁) (hc₂ : b.baseline_jobs = c₂)
    (s₁ s₂ : Except BenchError (List SelectorJob))
    (hs₁ : b.selector_jobs = s₁) (hs₂ : b.selector_jobs = s₂) :
    r₁ = r₂ ∧ a₁ = a₂ ∧ c₁ = c₂ ∧ s₁ = s₂
    ∧ ∀ L₁ L₂ : List TPOTJob, r₁ = .ok L₁ → r₂ = .ok L₂ →
        L₁.length = L₂.length
        ∧ L₁.map TPOTJob.identity = L₂.map TPOTJob.identity := by
  subst h₁ h₂ ha₁ ha₂ hc₁ hc₂ hs₁ hs₂
  refine ⟨rfl, rfl, rfl, rfl, ?_⟩
  intro L₁ L₂ hL₁ hL₂
  have hLL : L₁ = L₂ := Except.ok.inj (hL₁.symm.trans hL₂)
  subst hLL
  exact ⟨rfl, rfl⟩

/-- Instantiation of `enumeration_idempotent` on the example
configuration and the trivial backend state. -/
theorem enumeration_idempotent_witness :
    exampleBench.jobs trivialBackend none
        = exampleBench.jobs trivialBackend none
    ∧ exampleBench.algorithm_jobs = exampleBench.algorithm_jobs
    ∧ exampleBench.baseline_jobs = exampleBench.baseline_jobs
    ∧ exampleBench.selector_jobs = exampleBench.selector_jobs
    ∧ ∀ L₁ L₂ : List TPOTJob,
        exampleBench.jobs trivialBackend none = .ok L₁ →
        exampleBench.jobs trivialBackend none = .ok L₂ →
          L₁.length = L₂.length
          ∧ L₁.map TPOTJob.identity = L₂.map TPOTJob.identity :=
  enumeration_idempotent exampleBench trivialBackend
    (exampleBench.jobs trivialBackend none)
    (exampleBench.jobs trivialBackend none) rfl rfl
    exampleBench.algorithm_jobs exampleBench.algorithm_jobs rfl rfl
    exampleBench.baseline_jobs exampleBench.baseline_jobs rfl rfl
    exampleBench.selector_jobs exampleBench.selector_jobs rfl rfl
